import Mathlib

/-!
Shallow embedding of the External Command Execution Gateway of the
BAKA assistant repository: the command executors of
`src/assistant/tools/windows_automator.py` (`execute_command`) and
`src/assistant/tools/vm_manager.py` (`_execute_vm_command`), together with
the argv builders of the VirtualBox and VMware management functions.

A Python call either returns a value or raises an exception; this is
modelled by `Py`.  The observable outcome of the single `subprocess.run`
call inside each executor is modelled by `RunOutcome`; the executors are
then pure functions from their arguments and that outcome to the value
they hand back to the caller.
-/

namespace BakaGateway

/-- Result of calling a Python function: either a normal return or a
raised exception (carrying the exception's rendering). -/
inductive Py (α : Type) where
  | ret (val : α)
  | raised (exn : String)
deriving DecidableEq, Repr

/-- Python whitespace as used by `str.strip()` with no arguments:
the ASCII whitespace and separator controls together with the Unicode
space characters. -/
def isPySpace (c : Char) : Bool :=
  let n := c.toNat
  (9 ≤ n && n ≤ 13) || (28 ≤ n && n ≤ 31) || n = 32 || n = 0x85 || n = 0xA0
    || n = 0x1680 || (0x2000 ≤ n && n ≤ 0x200A) || n = 0x2028 || n = 0x2029
    || n = 0x202F || n = 0x205F || n = 0x3000

/-- Python `s.strip()`: remove leading and trailing whitespace. -/
def pyStrip (s : String) : String :=
  String.mk (((s.data.dropWhile isPySpace).reverse.dropWhile isPySpace).reverse)

/-- The outcome of the `subprocess.run(...)` call as observed by the
repository code inside its `try` block:
either the run completed within the timeout (a `CompletedProcess` with
`returncode`, decoded `stdout` and `stderr`), or one of the exceptions the
code catches was raised (`subprocess.TimeoutExpired`, `FileNotFoundError`,
or any other `Exception` carrying its rendered detail). -/
inductive RunOutcome where
  | completed (returncode : Int) (stdout stderr : String)
  | timeoutExpired
  | fileNotFoundError
  | otherException (detail : String)
deriving DecidableEq, Repr

/-- What the child process itself does during one `subprocess.run` call. -/
inductive ChildEvent where
  | exits (code : Int) (stdout stderr : String)
  | runsPastTimeout
  | execFails
deriving DecidableEq, Repr

/-- CPython `subprocess.run` semantics, mapping the child's behaviour to
the outcome the repository code observes, paired with whether a child
process is still running after the call: on completion the child has
exited; when the child is still running at the deadline, `run()` kills the
child and waits for it before re-raising `TimeoutExpired`, so no child
remains; when the executable cannot be located, no child was created. -/
def subprocessRun : ChildEvent → RunOutcome × Bool
  | ChildEvent.exits code out err => (RunOutcome.completed code out err, false)
  | ChildEvent.runsPastTimeout => (RunOutcome.timeoutExpired, false)
  | ChildEvent.execFails => (RunOutcome.fileNotFoundError, false)

/-- The spec's error taxonomy for classified execution results. -/
inductive ErrorKind where
  | ToolNotFound
  | TimedOut
  | NonZeroExit (code : Int)
  | Unexpected (detail : String)
deriving DecidableEq, Repr

/-- The spec's `ErrorKind` classification of an execution outcome.  The
source code returns only a `(bool, str)` tuple, so this definition follows
the spec's words: each taxonomy entry corresponds to exactly one branch of
the executors' `returncode` check and `except` clauses. -/
def errorKindOf : RunOutcome → Option ErrorKind
  | RunOutcome.completed code _ _ =>
      if code = 0 then none else some (ErrorKind.NonZeroExit code)
  | RunOutcome.timeoutExpired => some ErrorKind.TimedOut
  | RunOutcome.fileNotFoundError => some ErrorKind.ToolNotFound
  | RunOutcome.otherException e => some (ErrorKind.Unexpected e)

/-! ## windows_automator.execute_command -/

/-- The default of the `timeout` parameter of `execute_command`
(windows_automator.py line 26). -/
def execute_command_default_timeout : Nat := 30

/-- The encoding `execute_command` passes to `subprocess.run`
(windows_automator.py: `encoding='cp850'`, a fixed literal). -/
def execute_command_encoding : String := "cp850"

/-- The tokens `execute_command` prepends for `shell_type = "cmd"`
(windows_automator.py: `["cmd", "/c"] + command`). -/
def cmdWrapTokens : List String := ["cmd", "/c"]

/-- The tokens `execute_command` prepends for `shell_type = "powershell"`
(windows_automator.py: `["powershell", "-NoProfile", "-Command"] + command`). -/
def powershellWrapTokens : List String := ["powershell", "-NoProfile", "-Command"]

/-- The `full_command` argv built by `execute_command` before invoking
`subprocess.run`; `none` when the shell type is unknown, in which case the
function returns early and no process is spawned. -/
def execute_command_argv (command : List String) (shell_type : String) :
    Option (List String) :=
  if shell_type = "powershell" then some (powershellWrapTokens ++ command)
  else if shell_type = "cmd" then some (cmdWrapTokens ++ command)
  else none

/-- Whether a call to `execute_command` reaches the `subprocess.run`
spawn: only when the shell type was recognised and an argv was built. -/
def execute_command_spawns (command : List String) (shell_type : String) : Bool :=
  (execute_command_argv command shell_type).isSome

/-- Embedding of `windows_automator.execute_command`: builds the wrapped
argv (returning the unknown-shell failure tuple early when it cannot),
then classifies the `subprocess.run` outcome exactly as the source's
`returncode` check and `except` clauses do.  Every branch of the source
returns a `(bool, str)` tuple; no branch raises. -/
def execute_command (command : List String) (shell_type : String)
    (timeout : Nat) (run : RunOutcome) : Py (Bool × String) :=
  match execute_command_argv command shell_type with
  | none => Py.ret (false, "Tipo de shell desconhecido: " ++ shell_type)
  | some _full_command =>
    match run with
    | RunOutcome.completed code out err =>
      if code = 0 then Py.ret (true, pyStrip out)
      else
        let errorMessage :=
          "Erro ao executar comando (código " ++ toString code ++ "):\n"
            ++ pyStrip err
        if out = "" then Py.ret (false, errorMessage)
        else Py.ret (false, errorMessage ++ "\nSaída (stdout):\n" ++ pyStrip out)
    | RunOutcome.timeoutExpired =>
      Py.ret (false, "Erro: O comando excedeu o tempo limite de "
        ++ toString timeout ++ " segundos.")
    | RunOutcome.fileNotFoundError =>
      Py.ret (false, "Erro: " ++ String.singleton (Char.ofNat 39) ++ shell_type
        ++ String.singleton (Char.ofNat 39)
        ++ " não encontrado. Verifique a instalação e o PATH.")
    | RunOutcome.otherException e =>
      Py.ret (false, "Erro inesperado ao executar o comando: " ++ e)

/-- `windows_automator.list_directory_windows`: runs `dir <path>` through
the cmd shell with the default timeout. -/
def list_directory_windows (path : String) (run : RunOutcome) :
    Py (Bool × String) :=
  execute_command ["dir", path] "cmd" execute_command_default_timeout run

/-! ## vm_manager._execute_vm_command -/

/-- The default of the `timeout` parameter of `_execute_vm_command`
(vm_manager.py line 27). -/
def vm_command_default_timeout : Nat := 60

/-- The encoding `_execute_vm_command` passes to `subprocess.run`
(vm_manager.py: `encoding='utf-8'`, a fixed literal). -/
def vm_command_encoding : String := "utf-8"

/-- The tool-not-found diagnostic of `_execute_vm_command`
(vm_manager.py lines 65-66; the literal wraps across two source lines,
so the newline and indentation are part of the text). -/
def vmToolNotFoundMsg (tool_name : String) : String :=
  "Erro: Ferramenta \n              " ++ String.singleton (Char.ofNat 39)
    ++ tool_name ++ String.singleton (Char.ofNat 39)
    ++ " não encontrada. Verifique a instalação e o PATH."

/-- Embedding of `vm_manager._execute_vm_command`: classifies the
`subprocess.run` outcome exactly as the source's `returncode` check and
`except` clauses do.  Every branch returns a `(bool, str)` tuple. -/
def _execute_vm_command (command : List String) (tool_name : String)
    (timeout : Nat) (run : RunOutcome) : Py (Bool × String) :=
  match run with
  | RunOutcome.completed code out err =>
    if code = 0 then Py.ret (true, pyStrip out)
    else
      let errorMessage :=
        "Erro ao executar " ++ tool_name ++ " (código " ++ toString code
          ++ "):\n" ++ pyStrip err
      if out = "" then Py.ret (false, errorMessage)
      else Py.ret (false, errorMessage ++ "\nSaída (stdout):\n" ++ pyStrip out)
  | RunOutcome.timeoutExpired =>
    Py.ret (false, "Erro: O comando " ++ tool_name
      ++ " excedeu o tempo limite de " ++ toString timeout ++ " segundos.")
  | RunOutcome.fileNotFoundError =>
    Py.ret (false, vmToolNotFoundMsg tool_name)
  | RunOutcome.otherException e =>
    Py.ret (false, "Erro inesperado ao executar " ++ tool_name ++ ": " ++ e)

/-! ## Strict UTF-8 decoding (the vm executor's `encoding='utf-8'`)

`subprocess.run(..., text=True, encoding='utf-8')` decodes the captured
byte streams strictly; an undecodable sequence raises
`UnicodeDecodeError` inside the call, which the repository code observes
through its generic `except Exception` clause. -/

/-- A UTF-8 continuation byte. -/
def utf8Cont (b : Nat) : Bool := 0x80 ≤ b && b ≤ 0xBF

/-- Decode one UTF-8 scalar from the front of a byte list, returning the
code point and the remaining bytes; `none` on any invalid, truncated,
overlong or surrogate sequence (the strict decoder). -/
def utf8DecodeChar : List Nat → Option (Nat × List Nat)
  | [] => none
  | b0 :: rest =>
    if b0 ≤ 0x7F then some (b0, rest)
    else if 0xC2 ≤ b0 && b0 ≤ 0xDF then
      match rest with
      | b1 :: r =>
        if utf8Cont b1 then some ((b0 - 0xC0) * 0x40 + (b1 - 0x80), r)
        else none
      | [] => none
    else if 0xE0 ≤ b0 && b0 ≤ 0xEF then
      match rest with
      | b1 :: b2 :: r =>
        let lo1 := if b0 = 0xE0 then 0xA0 else 0x80
        let hi1 := if b0 = 0xED then 0x9F else 0xBF
        if lo1 ≤ b1 && b1 ≤ hi1 && utf8Cont b2 then
          some ((b0 - 0xE0) * 0x1000 + (b1 - 0x80) * 0x40 + (b2 - 0x80), r)
        else none
      | _ => none
    else if 0xF0 ≤ b0 && b0 ≤ 0xF4 then
      match rest with
      | b1 :: b2 :: b3 :: r =>
        let lo1 := if b0 = 0xF0 then 0x90 else 0x80
        let hi1 := if b0 = 0xF4 then 0x8F else 0xBF
        if lo1 ≤ b1 && b1 ≤ hi1 && utf8Cont b2 && utf8Cont b3 then
          some ((b0 - 0xF0) * 0x40000 + (b1 - 0x80) * 0x1000
            + (b2 - 0x80) * 0x40 + (b3 - 0x80), r)
        else none
      | _ => none
    else none

/-- Fuelled decoding loop; the fuel is the byte count, and each decoded
scalar consumes at least one byte, so the fuel never runs out. -/
def utf8DecodeLoop : Nat → List Nat → Option (List Char)
  | _, [] => some []
  | 0, _ :: _ => none
  | fuel + 1, bs =>
    match utf8DecodeChar bs with
    | none => none
    | some (cp, rest) =>
      (utf8DecodeLoop fuel rest).map fun cs => Char.ofNat cp :: cs

/-- Python `bytes.decode("utf-8")` with strict error handling. -/
def utf8Decode (bs : List Nat) : Option String :=
  (utf8DecodeLoop bs.length bs).map String.mk

/-- Rendering of the `UnicodeDecodeError` raised by the strict decoder
(CPython names the codec, offending byte and position; the repository
code only interpolates `str(e)` into its generic diagnostic). -/
def unicodeDecodeDetail : String :=
  "UnicodeDecodeError (utf-8 codec, invalid byte sequence)"

/-- Byte-level view of `_execute_vm_command` on a completed child: the
`subprocess.run` call decodes the captured streams with the fixed
`utf-8` encoding; on decode failure `UnicodeDecodeError` propagates out
of `subprocess.run` and is caught by the executor's generic
`except Exception` clause. -/
def _execute_vm_command_bytes (command : List String) (tool_name : String)
    (timeout : Nat) (returncode : Int) (stdoutBytes stderrBytes : List Nat) :
    Py (Bool × String) :=
  match utf8Decode stdoutBytes, utf8Decode stderrBytes with
  | some out, some err =>
    _execute_vm_command command tool_name timeout
      (RunOutcome.completed returncode out err)
  | _, _ =>
    _execute_vm_command command tool_name timeout
      (RunOutcome.otherException unicodeDecodeDetail)

/-! ## VirtualBox operations (vm_manager.py) -/

/-- Argv and timeout of `list_vbox_vms`: `["VBoxManage", "list", "vms"]`
with the helper's default timeout. -/
def list_vbox_vms_call : List String × Nat :=
  (["VBoxManage", "list", "vms"], vm_command_default_timeout)

/-- `vm_manager.list_vbox_vms`. -/
def list_vbox_vms (run : RunOutcome) : Py (Bool × String) :=
  _execute_vm_command list_vbox_vms_call.1 "VBoxManage" list_vbox_vms_call.2 run

/-- Argv and timeout of `start_vbox_vm`: the base command extended with
`--type headless` or `--type gui`, run with timeout 120. -/
def start_vbox_vm_call (vm_name_or_uuid : String) (headless : Bool) :
    List String × Nat :=
  let command := ["VBoxManage", "startvm", vm_name_or_uuid]
  let command :=
    if headless then command ++ ["--type", "headless"]
    else command ++ ["--type", "gui"]
  (command, 120)

/-- `vm_manager.start_vbox_vm`. -/
def start_vbox_vm (vm_name_or_uuid : String) (headless : Bool)
    (run : RunOutcome) : Py (Bool × String) :=
  _execute_vm_command (start_vbox_vm_call vm_name_or_uuid headless).1
    "VBoxManage" (start_vbox_vm_call vm_name_or_uuid headless).2 run

/-- Argv and timeout of `stop_vbox_vm`: the base command with `poweroff`
or `acpipowerbutton` appended, run with timeout 90. -/
def stop_vbox_vm_call (vm_name_or_uuid : String) (force : Bool) :
    List String × Nat :=
  let command := ["VBoxManage", "controlvm", vm_name_or_uuid]
  let command :=
    if force then command ++ ["poweroff"] else command ++ ["acpipowerbutton"]
  (command, 90)

/-- `vm_manager.stop_vbox_vm`. -/
def stop_vbox_vm (vm_name_or_uuid : String) (force : Bool)
    (run : RunOutcome) : Py (Bool × String) :=
  _execute_vm_command (stop_vbox_vm_call vm_name_or_uuid force).1
    "VBoxManage" (stop_vbox_vm_call vm_name_or_uuid force).2 run

/-! ## VMware operations (vm_manager.py) -/

/-- Python `list.append` invoked with two positional arguments, as at
vm_manager.py lines 156 and 158 (`command.append("-T", "ws-nogui")` /
`command.append("-T", "ws")`): `append` takes exactly one argument, so
the call raises `TypeError` and the list is not extended. -/
def pyListAppend2 (_xs : List String) (_a _b : String) : Py (List String) :=
  Py.raised "TypeError: append() takes exactly one argument (2 given)"

/-- The argv construction of `start_vmware_vm`: starts from `["vmrun"]`,
then calls `append` with two arguments on either branch of `nogui`, which
raises before the rest of the command is assembled. -/
def start_vmware_vm_command (vmx_path : String) (nogui : Bool) :
    Py (List String) :=
  let command : List String := ["vmrun"]
  match
    (if nogui then pyListAppend2 command "-T" "ws-nogui"
     else pyListAppend2 command "-T" "ws") with
  | Py.raised e => Py.raised e
  | Py.ret command =>
    let command := command ++ ["start", vmx_path]
    let command := command ++ [if nogui then "nogui" else "gui"]
    Py.ret command

/-- `vm_manager.start_vmware_vm`: the `TypeError` from the argv
construction propagates to the caller (the function body is not wrapped
in a `try` block); otherwise it would delegate with timeout 120. -/
def start_vmware_vm (vmx_path : String) (nogui : Bool) (run : RunOutcome) :
    Py (Bool × String) :=
  match start_vmware_vm_command vmx_path nogui with
  | Py.raised e => Py.raised e
  | Py.ret command => _execute_vm_command command "vmrun" 120 run

/-- Argv and timeout of `stop_vmware_vm`: built by successive appends,
run with timeout 90. -/
def stop_vmware_vm_call (vmx_path : String) (force : Bool) :
    List String × Nat :=
  let command := ["vmrun", "-T", "ws"]
  let command := command ++ ["stop"]
  let command := command ++ [vmx_path]
  let command := command ++ [if force then "hard" else "soft"]
  (command, 90)

/-- `vm_manager.stop_vmware_vm`. -/
def stop_vmware_vm (vmx_path : String) (force : Bool) (run : RunOutcome) :
    Py (Bool × String) :=
  _execute_vm_command (stop_vmware_vm_call vmx_path force).1 "vmrun"
    (stop_vmware_vm_call vmx_path force).2 run

/-- Argv and timeout of `list_vmware_running_vms`: `["vmrun", "list"]`
with the helper's default timeout. -/
def list_vmware_running_vms_call : List String × Nat :=
  (["vmrun", "list"], vm_command_default_timeout)

/-- `vm_manager.list_vmware_running_vms`. -/
def list_vmware_running_vms (run : RunOutcome) : Py (Bool × String) :=
  _execute_vm_command list_vmware_running_vms_call.1 "vmrun"
    list_vmware_running_vms_call.2 run

/-- Argv and timeout of `execute_command_in_vmware_guest`, run with
timeout 120. -/
def execute_command_in_vmware_guest_call (vmx_path guest_user guest_pass
    command_to_run : String) : List String × Nat :=
  (["vmrun", "-T", "ws", "-gu", guest_user, "-gp", guest_pass,
    "runProgramInGuest", vmx_path, "-activeWindow", command_to_run], 120)

/-- `vm_manager.execute_command_in_vmware_guest`. -/
def execute_command_in_vmware_guest (vmx_path guest_user guest_pass
    command_to_run : String) (run : RunOutcome) : Py (Bool × String) :=
  _execute_vm_command
    (execute_command_in_vmware_guest_call vmx_path guest_user guest_pass
      command_to_run).1
    "vmrun"
    (execute_command_in_vmware_guest_call vmx_path guest_user guest_pass
      command_to_run).2
    run

/-! ## Theorems -/

/-- C1: for every non-empty command whose child process exits within the
timeout with exit code 0, both `execute_command` (under either recognised
shell kind) and `_execute_vm_command` return success with the captured
standard output trimmed of leading and trailing whitespace, and the
spec's classification assigns no ErrorKind. -/
theorem exit_zero_returns_trimmed_stdout
    (command : List String) (shell_type tool_name : String) (timeout : Nat)
    (out err : String) (hne : command ≠ [])
    (hst : shell_type = "cmd" ∨ shell_type = "powershell") :
    execute_command command shell_type timeout (RunOutcome.completed 0 out err)
      = Py.ret (true, pyStrip out)
    ∧ _execute_vm_command command tool_name timeout
        (RunOutcome.completed 0 out err)
      = Py.ret (true, pyStrip out)
    ∧ errorKindOf (RunOutcome.completed 0 out err) = none := by
  rcases hst with h | h <;> subst h <;>
    simp [execute_command, execute_command_argv, _execute_vm_command,
      errorKindOf]

/-- Witness for C1 at a concrete input. -/
theorem exit_zero_returns_trimmed_stdout_witness :
    execute_command ["dir", "C:\\"] "cmd" 30 (RunOutcome.completed 0 "  ok \n" "e")
      = Py.ret (true, pyStrip "  ok \n")
    ∧ _execute_vm_command ["dir", "C:\\"] "VBoxManage" 30
        (RunOutcome.completed 0 "  ok \n" "e")
      = Py.ret (true, pyStrip "  ok \n")
    ∧ errorKindOf (RunOutcome.completed 0 "  ok \n" "e") = none :=
  exit_zero_returns_trimmed_stdout ["dir", "C:\\"] "cmd" "VBoxManage" 30
    "  ok \n" "e" (by decide) (Or.inl rfl)

/-- C2: for every non-empty command whose child process exits within the
timeout with a nonzero code, both executors return failure with the
formatted message that names the numeric exit code and the trimmed
standard-error text first, with the trimmed standard-output text appended
exactly when the captured standard output is non-empty, and the spec's
classification is NonZeroExit of that code. -/
theorem nonzero_exit_formats_error_message
    (command : List String) (shell_type tool_name : String) (timeout : Nat)
    (code : Int) (out err : String) (hne : command ≠ []) (hcode : code ≠ 0)
    (hst : shell_type = "cmd" ∨ shell_type = "powershell") :
    execute_command command shell_type timeout
        (RunOutcome.completed code out err)
      = Py.ret (false,
          "Erro ao executar comando (código " ++ toString code ++ "):\n"
            ++ pyStrip err
            ++ (if out = "" then ""
                else "\nSaída (stdout):\n" ++ pyStrip out))
    ∧ _execute_vm_command command tool_name timeout
        (RunOutcome.completed code out err)
      = Py.ret (false,
          "Erro ao executar " ++ tool_name ++ " (código " ++ toString code
            ++ "):\n" ++ pyStrip err
            ++ (if out = "" then ""
                else "\nSaída (stdout):\n" ++ pyStrip out))
    ∧ errorKindOf (RunOutcome.completed code out err)
      = some (ErrorKind.NonZeroExit code) := by
  rcases hst with h | h <;> subst h <;> by_cases hout : out = "" <;>
    simp [execute_command, execute_command_argv, _execute_vm_command,
      errorKindOf, hcode, hout, String.append_assoc]

/-- Witness for C2 at a concrete input. -/
theorem nonzero_exit_formats_error_message_witness :
    execute_command ["dir", "C:\\"] "powershell" 30
        (RunOutcome.completed 2 "also here" " bad ")
      = Py.ret (false,
          "Erro ao executar comando (código " ++ toString (2 : Int) ++ "):\n"
            ++ pyStrip " bad "
            ++ (if ("also here" : String) = "" then ""
                else "\nSaída (stdout):\n" ++ pyStrip "also here"))
    ∧ _execute_vm_command ["dir", "C:\\"] "vmrun" 30
        (RunOutcome.completed 2 "also here" " bad ")
      = Py.ret (false,
          "Erro ao executar " ++ "vmrun" ++ " (código " ++ toString (2 : Int)
            ++ "):\n" ++ pyStrip " bad "
            ++ (if ("also here" : String) = "" then ""
                else "\nSaída (stdout):\n" ++ pyStrip "also here"))
    ∧ errorKindOf (RunOutcome.completed 2 "also here" " bad ")
      = some (ErrorKind.NonZeroExit 2) :=
  nonzero_exit_formats_error_message ["dir", "C:\\"] "powershell" "vmrun" 30 2
    "also here" " bad " (by decide) (by decide) (Or.inr rfl)

/-- C3: when the child process is still running at the deadline,
subprocess.run kills it (no child remains afterwards) and both executors
return normally with the failure message naming the timeout; the spec's
classification is TimedOut. -/
theorem timeout_reports_timed_out_and_child_killed
    (command : List String) (shell_type tool_name : String) (timeout : Nat)
    (hst : shell_type = "cmd" ∨ shell_type = "powershell") :
    execute_command command shell_type timeout
        (subprocessRun ChildEvent.runsPastTimeout).1
      = Py.ret (false, "Erro: O comando excedeu o tempo limite de "
          ++ toString timeout ++ " segundos.")
    ∧ _execute_vm_command command tool_name timeout
        (subprocessRun ChildEvent.runsPastTimeout).1
      = Py.ret (false, "Erro: O comando " ++ tool_name
          ++ " excedeu o tempo limite de " ++ toString timeout ++ " segundos.")
    ∧ (subprocessRun ChildEvent.runsPastTimeout).2 = false
    ∧ errorKindOf (subprocessRun ChildEvent.runsPastTimeout).1
      = some ErrorKind.TimedOut := by
  rcases hst with h | h <;> subst h <;>
    simp [execute_command, execute_command_argv, _execute_vm_command,
      subprocessRun, errorKindOf]

/-- Witness for C3 at a concrete input. -/
theorem timeout_reports_timed_out_and_child_killed_witness :
    execute_command ["ping", "localhost"] "cmd" 30
        (subprocessRun ChildEvent.runsPastTimeout).1
      = Py.ret (false, "Erro: O comando excedeu o tempo limite de "
          ++ toString (30 : Nat) ++ " segundos.")
    ∧ _execute_vm_command ["ping", "localhost"] "VBoxManage" 30
        (subprocessRun ChildEvent.runsPastTimeout).1
      = Py.ret (false, "Erro: O comando " ++ "VBoxManage"
          ++ " excedeu o tempo limite de " ++ toString (30 : Nat)
          ++ " segundos.")
    ∧ (subprocessRun ChildEvent.runsPastTimeout).2 = false
    ∧ errorKindOf (subprocessRun ChildEvent.runsPastTimeout).1
      = some ErrorKind.TimedOut :=
  timeout_reports_timed_out_and_child_killed ["ping", "localhost"] "cmd"
    "VBoxManage" 30 (Or.inl rfl)

/-- C4: when the process fails to start because the executable cannot be
located, both executors return the not-found diagnostic and the spec's
classification is ToolNotFound, regardless of which recognised shell kind
dispatched the command. -/
theorem missing_executable_reports_tool_not_found
    (command : List String) (shell_type tool_name : String) (timeout : Nat)
    (hst : shell_type = "cmd" ∨ shell_type = "powershell") :
    execute_command command shell_type timeout
        (subprocessRun ChildEvent.execFails).1
      = Py.ret (false, "Erro: " ++ String.singleton (Char.ofNat 39)
          ++ shell_type ++ String.singleton (Char.ofNat 39)
          ++ " não encontrado. Verifique a instalação e o PATH.")
    ∧ _execute_vm_command command tool_name timeout
        (subprocessRun ChildEvent.execFails).1
      = Py.ret (false, vmToolNotFoundMsg tool_name)
    ∧ errorKindOf (subprocessRun ChildEvent.execFails).1
      = some ErrorKind.ToolNotFound := by
  rcases hst with h | h <;> subst h <;>
    simp [execute_command, execute_command_argv, _execute_vm_command,
      subprocessRun, errorKindOf]

/-- Witness for C4 at a concrete input. -/
theorem missing_executable_reports_tool_not_found_witness :
    execute_command ["Get-Date"] "powershell" 30
        (subprocessRun ChildEvent.execFails).1
      = Py.ret (false, "Erro: " ++ String.singleton (Char.ofNat 39)
          ++ "powershell" ++ String.singleton (Char.ofNat 39)
          ++ " não encontrado. Verifique a instalação e o PATH.")
    ∧ _execute_vm_command ["Get-Date"] "vmrun" 30
        (subprocessRun ChildEvent.execFails).1
      = Py.ret (false, vmToolNotFoundMsg "vmrun")
    ∧ errorKindOf (subprocessRun ChildEvent.execFails).1
      = some ErrorKind.ToolNotFound :=
  missing_executable_reports_tool_not_found ["Get-Date"] "powershell" "vmrun"
    30 (Or.inr rfl)

/-- C5: the VirtualBox operations build exactly the argv and timeout of
the mapping table, with the VM identifier passed through unmodified. -/
theorem vbox_argv_and_timeout_table
    (vm_name_or_uuid : String) (headless force : Bool) :
    list_vbox_vms_call = (["VBoxManage", "list", "vms"], 60)
    ∧ start_vbox_vm_call vm_name_or_uuid headless
      = (["VBoxManage", "startvm", vm_name_or_uuid, "--type",
          if headless then "headless" else "gui"], 120)
    ∧ stop_vbox_vm_call vm_name_or_uuid force
      = (["VBoxManage", "controlvm", vm_name_or_uuid,
          if force then "poweroff" else "acpipowerbutton"], 90) := by
  refine ⟨rfl, ?_, ?_⟩
  · cases headless <;> rfl
  · cases force <;> rfl

/-- C6: evaluating the VMware operations: start_vmware_vm raises
TypeError on every call (list.append invoked with two arguments) instead
of building the table's argv, while the stop, guest-command and list
operations do build exactly the table's argv and timeouts. -/
theorem vmware_start_raises_type_error :
    start_vmware_vm "C:\\vms\\test.vmx" false (RunOutcome.completed 0 "" "")
      = Py.raised "TypeError: append() takes exactly one argument (2 given)"
    ∧ start_vmware_vm "C:\\vms\\test.vmx" true (RunOutcome.completed 0 "" "")
      = Py.raised "TypeError: append() takes exactly one argument (2 given)"
    ∧ stop_vmware_vm_call "C:\\vms\\test.vmx" false
      = (["vmrun", "-T", "ws", "stop", "C:\\vms\\test.vmx", "soft"], 90)
    ∧ stop_vmware_vm_call "C:\\vms\\test.vmx" true
      = (["vmrun", "-T", "ws", "stop", "C:\\vms\\test.vmx", "hard"], 90)
    ∧ execute_command_in_vmware_guest_call "C:\\vms\\test.vmx" "user"
        "secret" "ipconfig"
      = (["vmrun", "-T", "ws", "-gu", "user", "-gp", "secret",
          "runProgramInGuest", "C:\\vms\\test.vmx", "-activeWindow",
          "ipconfig"], 120)
    ∧ list_vmware_running_vms_call = (["vmrun", "list"], 60) :=
  ⟨rfl, rfl, rfl, rfl, rfl, rfl⟩

/-- C7 counterexample: with raw arguments containing the token "/c", the
argv built for the powershell shell kind contains "/c", which is a
wrapping token of the cmd shell kind, so wrapping tokens of one kind can
appear in the argv built for the other. -/
theorem wrap_token_cross_contamination_counterexample :
    execute_command_argv ["/c"] "powershell"
      = some ["powershell", "-NoProfile", "-Command", "/c"]
    ∧ "/c" ∈ cmdWrapTokens
    ∧ "/c" ∈ ["powershell", "-NoProfile", "-Command", "/c"]
    ∧ "/c" ∉ powershellWrapTokens := by
  refine ⟨rfl, by decide, by decide, by decide⟩

/-- C7 (amended): the wrapping is the pure function taking raw arguments
to the fixed prefix of its shell kind followed by the raw arguments; the
prefixes of the two kinds share no token, and a wrapping token of one
kind appears in the argv built for the other only when it already occurs
among the raw arguments. -/
theorem shell_adapter_wrapping_amended (rawArgs : List String) :
    execute_command_argv rawArgs "cmd" = some (cmdWrapTokens ++ rawArgs)
    ∧ execute_command_argv rawArgs "powershell"
      = some (powershellWrapTokens ++ rawArgs)
    ∧ (∀ t ∈ cmdWrapTokens, t ∉ powershellWrapTokens)
    ∧ (∀ t ∈ powershellWrapTokens, t ∉ cmdWrapTokens)
    ∧ (∀ t ∈ cmdWrapTokens, t ∈ powershellWrapTokens ++ rawArgs → t ∈ rawArgs)
    ∧ (∀ t ∈ powershellWrapTokens, t ∈ cmdWrapTokens ++ rawArgs → t ∈ rawArgs)
    := by
  refine ⟨rfl, rfl, by decide, by decide, ?_, ?_⟩
  · intro t ht hmem
    rcases List.mem_append.1 hmem with h | h
    · exfalso
      have h2 : t = "cmd" ∨ t = "/c" := by simpa [cmdWrapTokens] using ht
      rcases h2 with rfl | rfl <;> revert h <;> decide
    · exact h
  · intro t ht hmem
    rcases List.mem_append.1 hmem with h | h
    · exfalso
      have h2 : t = "powershell" ∨ t = "-NoProfile" ∨ t = "-Command" := by
        simpa [powershellWrapTokens] using ht
      rcases h2 with rfl | rfl | rfl <;> revert h <;> decide
    · exact h

/-- C8 counterexample: an unknown shell kind is not rejected by a
propagating failure; the call returns a normal failure tuple naming the
unknown shell type (and no child process is spawned). -/
theorem unknown_shell_returns_normally_counterexample :
    execute_command ["Get-Date"] "bash" 30 (RunOutcome.completed 0 "" "")
      = Py.ret (false, "Tipo de shell desconhecido: bash")
    ∧ execute_command_spawns ["Get-Date"] "bash" = false :=
  ⟨rfl, rfl⟩

/-- C8 (amended): for every shell kind other than cmd and powershell, the
call returns normally with a failure result whose output names the
unknown shell type, and no child process is spawned. -/
theorem unknown_shell_fail_result_amended
    (command : List String) (shell_type : String) (timeout : Nat)
    (run : RunOutcome)
    (h1 : shell_type ≠ "cmd") (h2 : shell_type ≠ "powershell") :
    execute_command command shell_type timeout run
      = Py.ret (false, "Tipo de shell desconhecido: " ++ shell_type)
    ∧ execute_command_spawns command shell_type = false := by
  constructor <;>
    simp [execute_command, execute_command_spawns, execute_command_argv,
      h1, h2]

/-- Witness for the amended C8 at a concrete input. -/
theorem unknown_shell_fail_result_amended_witness :
    execute_command ["ls"] "bash" 30 RunOutcome.timeoutExpired
      = Py.ret (false, "Tipo de shell desconhecido: " ++ "bash")
    ∧ execute_command_spawns ["ls"] "bash" = false :=
  unknown_shell_fail_result_amended ["ls"] "bash" 30 RunOutcome.timeoutExpired
    (by decide) (by decide)

/-- C9 counterexample: on a completed child with exit code 0 whose stdout
decodes but whose stderr bytes are invalid utf-8, the vm executor does
not fall back to lossy decoding (which would have produced the success
result): the UnicodeDecodeError reaches the generic handler and an
unexpected-error failure is returned. -/
theorem decode_failure_no_lossy_fallback_counterexample :
    utf8Decode [0x6F, 0x6B] = some "ok"
    ∧ utf8Decode [0xFF] = none
    ∧ _execute_vm_command_bytes ["vmrun", "list"] "vmrun" 60 0
        [0x6F, 0x6B] [0xFF]
      = Py.ret (false,
          "Erro inesperado ao executar vmrun: " ++ unicodeDecodeDetail)
    ∧ Py.ret (false, "Erro inesperado ao executar vmrun: "
        ++ unicodeDecodeDetail)
      ≠ (Py.ret (true, "ok") : Py (Bool × String)) := by
  refine ⟨by decide, by decide, by decide, by decide⟩

/-- C9 (amended): each executor decodes with a fixed hard-coded encoding
(cp850 for execute_command, utf-8 for the vm executor); for the vm
executor, captured bytes that fail strict utf-8 decoding do not crash the
call: the generic exception handler returns a failure result carrying the
unexpected-error diagnostic, with no lossy decoding. -/
theorem decode_failure_generic_handler_amended
    (command : List String) (tool_name : String) (timeout : Nat)
    (returncode : Int) (stdoutBytes stderrBytes : List Nat)
    (h : utf8Decode stdoutBytes = none ∨ utf8Decode stderrBytes = none) :
    _execute_vm_command_bytes command tool_name timeout returncode
        stdoutBytes stderrBytes
      = Py.ret (false, "Erro inesperado ao executar " ++ tool_name ++ ": "
          ++ unicodeDecodeDetail)
    ∧ execute_command_encoding = "cp850"
    ∧ vm_command_encoding = "utf-8" := by
  refine ⟨?_, rfl, rfl⟩
  rcases hx : utf8Decode stdoutBytes with _ | out <;>
    rcases hy : utf8Decode stderrBytes with _ | err <;>
      simp_all [_execute_vm_command_bytes, _execute_vm_command]

/-- Witness for the amended C9 at a concrete input. -/
theorem decode_failure_generic_handler_amended_witness :
    _execute_vm_command_bytes ["vmrun"] "vmrun" 60 1 [0xC0] [0x61]
      = Py.ret (false, "Erro inesperado ao executar " ++ "vmrun" ++ ": "
          ++ unicodeDecodeDetail)
    ∧ execute_command_encoding = "cp850"
    ∧ vm_command_encoding = "utf-8" :=
  decode_failure_generic_handler_amended ["vmrun"] "vmrun" 60 1 [0xC0] [0x61]
    (Or.inl (by decide))

/-- C10: the two executors carry different fixed default timeouts -
30 seconds for execute_command and 60 seconds for _execute_vm_command -
and the callers that omit the timeout run under exactly those bounds, as
the timeout diagnostic shows. -/
theorem default_timeouts_30_and_60 :
    execute_command_default_timeout = 30
    ∧ vm_command_default_timeout = 60
    ∧ (∀ path run, list_directory_windows path run
        = execute_command ["dir", path] "cmd" 30 run)
    ∧ (∀ run, list_vbox_vms run
        = _execute_vm_command ["VBoxManage", "list", "vms"] "VBoxManage" 60 run)
    ∧ (∀ run, list_vmware_running_vms run
        = _execute_vm_command ["vmrun", "list"] "vmrun" 60 run)
    ∧ (∀ path, list_directory_windows path RunOutcome.timeoutExpired
        = Py.ret (false,
            "Erro: O comando excedeu o tempo limite de 30 segundos."))
    ∧ list_vbox_vms RunOutcome.timeoutExpired
      = Py.ret (false,
          "Erro: O comando VBoxManage excedeu o tempo limite de 60 segundos.")
    := by
  refine ⟨rfl, rfl, fun path run => rfl, fun run => rfl, fun run => rfl,
    fun path => rfl, by decide⟩

end BakaGateway
